import Mathlib

/-!
Verification of the Sampler-Logger Loop of the Omnidirectional-Antenna
repository (`spectrum_try3.py` / `spectrum_try4.py`).

The embedding models `SpectrumAnalyzerApp`: the periodic `update_plot`
tick, the `pause_updates` / `resume_updates` controls and the
`reset_parameters` command sequence.  Python floats are modelled as
rationals (`ℚ`); `{x:.nf}` fixed-point formatting is modelled by a
decimal formatter with round-half-to-even; `str(x)` on a float is
modelled by `pyFloatStr`.  The instrument session is modelled as an
environment of optional query answers (`none` = the VISA call raises);
the log file is a list of lines; error dialogs are a list of messages.
-/

namespace Spectrum

/-- Decimal digit characters of `n`, most significant first, by repeated
division by 10.  `fuel` bounds the recursion; any `fuel ≥` the digit
count of `n` gives the full representation. -/
def natDigitsAux : ℕ → ℕ → List Char
  | _, 0 => []
  | n, fuel + 1 =>
    if n < 10 then [Nat.digitChar n]
    else natDigitsAux (n / 10) fuel ++ [Nat.digitChar (n % 10)]

/-- Decimal string of a natural number. -/
def natStr (n : ℕ) : String := String.mk (natDigitsAux n (n + 1))

/-- Decimal string of an integer, with a leading minus sign when negative. -/
def intStr (i : ℤ) : String :=
  (if i < 0 then "-" else "") ++ natStr i.natAbs

/-- Pads a string on the left with zeros up to width `n`. -/
def padLeftZeros (s : String) (n : ℕ) : String :=
  String.mk (List.replicate (n - s.length) '0') ++ s

/-- Rounds the fraction `num / den` to the nearest natural number, ties
going to the even neighbour (the rounding used when Python formats a
float with `{:.nf}`). -/
def roundHalfEven (num den : ℕ) : ℕ :=
  let q := num / den
  let r := num % den
  if 2 * r < den then q
  else if den < 2 * r then q + 1
  else if q % 2 = 0 then q else q + 1

/-- Model of Python `f"{x:.nf}"` on a rational: fixed-point decimal with
exactly `n` digits after the point, round-half-to-even, with a leading
minus sign when `x < 0`. -/
def formatFixed (x : ℚ) (n : ℕ) : String :=
  let m := roundHalfEven (x.num.natAbs * 10 ^ n) x.den
  let signStr := if x.num < 0 then "-" else ""
  if n = 0 then signStr ++ natStr m
  else signStr ++ natStr (m / 10 ^ n) ++ "." ++ padLeftZeros (natStr (m % 10 ^ n)) n

/-- Length of the terminating decimal expansion of `q` (0 when the
expansion does not terminate within `fuel` digits). -/
def decLen (q : ℚ) (fuel : ℕ) : ℕ :=
  match fuel with
  | 0 => 0
  | fuel + 1 => if q.den = 1 then 0 else 1 + decLen (q * 10) fuel

/-- Model of Python `str(x)` on a float: integral values render as
`"<int>.0"`; other values render with their shortest terminating decimal
expansion (capped at 17 digits, the double-precision repr bound). -/
def pyFloatStr (q : ℚ) : String :=
  if q.den = 1 then intStr q.num ++ ".0"
  else formatFixed q (max 1 (decLen q 17))

/-- Wall-clock timestamp, as captured by `datetime.now()`. -/
structure PyDateTime where
  year : ℕ
  month : ℕ
  day : ℕ
  hour : ℕ
  minute : ℕ
  second : ℕ
deriving DecidableEq

/-- Zero-pads a number to two decimal digits (`strftime` field padding). -/
def pad2 (n : ℕ) : String :=
  if n < 10 then "0" ++ natStr n else natStr n

/-- Zero-pads a year to four decimal digits (`strftime` `%Y`). -/
def pad4 (n : ℕ) : String :=
  padLeftZeros (natStr n) 4

/-- Model of `datetime.strftime('%Y-%m-%d %H:%M:%S')`. -/
def strftimeYmdHMS (t : PyDateTime) : String :=
  pad4 t.year ++ "-" ++ pad2 t.month ++ "-" ++ pad2 t.day ++ " " ++
    pad2 t.hour ++ ":" ++ pad2 t.minute ++ ":" ++ pad2 t.second

/-- Answers of the spectrum analyzer to the queries `update_plot` issues,
in raw instrument units (Hz, seconds, dB...).  `none` means the VISA
call raises an exception. -/
structure Instrument where
  traceData : Option (List ℚ)
  centerHz : Option ℚ
  spanHz : Option ℚ
  rbwHz : Option ℚ
  vbwHz : Option ℚ
  refLevel : Option ℚ
  sweepTimeSec : Option ℚ
  ampDiv : Option ℚ
  att : Option ℚ
  avgNum : Option ℚ

/-- The local variables `update_plot` computes from one cycle of
instrument queries, after unit conversion (lines 64-75 of
`spectrum_try3.py`). -/
structure Sample where
  trace : List ℚ
  centerFreq : ℚ
  span : ℚ
  rbw : ℚ
  vbw : ℚ
  refLevel : ℚ
  sweepTimeMs : ℚ
  ampDiv : ℚ
  att : ℚ
  avgNum : ℚ

/-- Runs the query block of `update_plot`: the trace query followed by
the nine scalar queries, each a fallible VISA round trip; any failure
aborts the whole block (the surrounding `try`).  Unit conversions follow
the source: center `/1e6`, span `/1e9`, rbw and vbw `/1e3`, sweep time
`*1000.0`. -/
def querySample (i : Instrument) : Option Sample := do
  let trace ← i.traceData
  let c ← i.centerHz
  let sp ← i.spanHz
  let rb ← i.rbwHz
  let vb ← i.vbwHz
  let rl ← i.refLevel
  let st ← i.sweepTimeSec
  let ad ← i.ampDiv
  let a ← i.att
  let av ← i.avgNum
  pure { trace := trace
         centerFreq := c / 1000000
         span := sp / 1000000000
         rbw := rb / 1000
         vbw := vb / 1000
         refLevel := rl
         sweepTimeMs := st * 1000
         ampDiv := ad
         att := a
         avgNum := av }

/-- The header line written by `update_plot` (line 79): the f-string
`"{t},{center:.6f},{span:.9f},{rbw:.3f},{vbw:.3f},{ref},{sweep_ms},{amp},{att},{avg},*"`. -/
def headerLine (ts : PyDateTime) (s : Sample) : String :=
  strftimeYmdHMS ts ++ "," ++ formatFixed s.centerFreq 6 ++ "," ++
    formatFixed s.span 9 ++ "," ++ formatFixed s.rbw 3 ++ "," ++
    formatFixed s.vbw 3 ++ "," ++ pyFloatStr s.refLevel ++ "," ++
    pyFloatStr s.sweepTimeMs ++ "," ++ pyFloatStr s.ampDiv ++ "," ++
    pyFloatStr s.att ++ "," ++ pyFloatStr s.avgNum ++ ",*"

/-- The trace line written by `update_plot` (line 80):
`','.join(map(lambda x: f"{x:.2f}", trace_data)) + ',@'`. -/
def traceLine (tr : List ℚ) : String :=
  String.intercalate "," (tr.map (fun x => formatFixed x 2)) ++ ",@"

/-- The lines one completed tick appends to the log file: the header
line, the trace line, and the blank line opened by the final `\n\n`. -/
def recordLines (ts : PyDateTime) (s : Sample) : List String :=
  [headerLine ts s, traceLine s.trace, ""]

/-- Observable state of `SpectrumAnalyzerApp`: the `pause` flag, the
lines of the `.rfi` log file, the trace currently drawn on the axes
(`none` before the first draw, mirroring `self.ax is None`), and the
error dialogs shown so far. -/
structure AppState where
  pause : Bool
  rfiFile : List String
  axTrace : Option (List ℚ)
  dialogs : List String

/-- Environment of one tick: the instrument answers, the wall clock, and
whether the file append and the plot redraw succeed. -/
structure TickEnv where
  instr : Instrument
  now : PyDateTime
  fileOk : Bool
  plotOk : Bool

/-- The error dialog `update_plot` shows on any exception (line 95). -/
def updateErrorMsg : String := "Error updating plot"

/-- Model of `SpectrumAnalyzerApp.update_plot` (lines 60-95): a no-op
when paused; otherwise queries the instrument, appends the record to the
log file, redraws the plot, and on any exception anywhere in the block
shows one error dialog and leaves everything else as it was. -/
def update_plot (env : TickEnv) (st : AppState) : AppState :=
  if st.pause then st
  else
    match querySample env.instr with
    | none => { st with dialogs := st.dialogs ++ [updateErrorMsg] }
    | some smp =>
      if env.fileOk then
        let st1 := { st with rfiFile := st.rfiFile ++ recordLines env.now smp }
        if env.plotOk then { st1 with axTrace := some smp.trace }
        else { st1 with dialogs := st1.dialogs ++ [updateErrorMsg] }
      else { st with dialogs := st.dialogs ++ [updateErrorMsg] }

/-- Model of `SpectrumAnalyzerApp.pause_updates` (lines 97-98). -/
def pause_updates (st : AppState) : AppState :=
  { st with pause := true }

/-- Model of `SpectrumAnalyzerApp.resume_updates` (lines 100-102):
clears the flag and immediately runs one tick. -/
def resume_updates (env : TickEnv) (st : AppState) : AppState :=
  update_plot env { st with pause := false }

/-- The VISA queries `update_plot` issues in one tick, in source order,
stopping at the first one that raises (the exception aborts the `try`
block). -/
def tickQueries (i : Instrument) (st : AppState) : List String :=
  if st.pause then []
  else
    "TRACE:DATA? TRACE1" ::
      match i.traceData with
      | none => []
      | some _ => ":SENSE:FREQ:CENTER?" ::
        match i.centerHz with
        | none => []
        | some _ => ":SENSE:FREQ:SPAN?" ::
          match i.spanHz with
          | none => []
          | some _ => ":SENSE:BAND:RES?" ::
            match i.rbwHz with
            | none => []
            | some _ => ":SENSE:BAND:VID?" ::
              match i.vbwHz with
              | none => []
              | some _ => ":DISP:WIND:TRAC:Y:RLEV?" ::
                match i.refLevel with
                | none => []
                | some _ => ":SWE:TIME?" ::
                  match i.sweepTimeSec with
                  | none => []
                  | some _ => ":DISP:WIND:TRAC:Y:SCAL?" ::
                    match i.ampDiv with
                    | none => []
                    | some _ => ":INP:ATT?" ::
                      match i.att with
                      | none => []
                      | some _ => [":AVER:COUN?"]

/-- The commands `reset_parameters` sends (lines 116-136): the device
reset followed by the eight configuration writes, with the hard-coded
defaults rendered by Python `str` inside the f-strings. -/
def resetCommands : List String :=
  ["*RST",
   ":SENSE:FREQ:CENTER " ++ pyFloatStr 100000000,
   ":SENSE:FREQ:SPAN " ++ pyFloatStr 1000000000,
   ":SENSE:BAND:RES " ++ pyFloatStr 100000,
   ":SENSE:BAND:VID " ++ pyFloatStr 100000,
   ":DISP:WIND:TRAC:Y:RLEV " ++ pyFloatStr (-10),
   ":DISP:WIND:TRAC:Y:SCAL " ++ pyFloatStr 10,
   ":INP:ATT " ++ pyFloatStr 0,
   ":AVER:COUN " ++ pyFloatStr 1]

/-- Sends a list of commands in order; `ok j` says whether the write
with overall index `j` succeeds.  Returns the commands actually
delivered and whether the whole sequence completed (a failing write
raises, aborting the rest of the `try` block). -/
def sendWrites (ok : ℕ → Bool) : List String → ℕ → List String × Bool
  | [], _ => ([], true)
  | c :: cs, j =>
    if ok j then
      let r := sendWrites ok cs (j + 1)
      (c :: r.1, r.2)
    else ([], false)

/-- Model of `SpectrumAnalyzerApp.reset_parameters` (lines 113-141):
the commands delivered to the instrument and whether the sequence
completed (success dialog) or aborted (error dialog). -/
def reset_parameters (ok : ℕ → Bool) : List String × Bool :=
  sendWrites ok resetCommands 0

/-- The characters after the last `'.'` of a character list, or `none`
when no `'.'` occurs.  Used to state "formatted with exactly `n` decimal
places". -/
def afterLastDot : List Char → Option (List Char)
  | [] => none
  | c :: cs =>
    match afterLastDot cs with
    | some t => some t
    | none => if c = '.' then some cs else none

/-- Concrete instrument answers used to exercise the theorems: the mock
tick of spec §8 (center 100 MHz, span 1 GHz, rbw = vbw = 100 kHz,
ref −10 dBm, sweep 0.01 s, amp/div 10, att 0, avg 1, two trace bins). -/
def instr0 : Instrument where
  traceData := some [-50123 / 1000, -60456 / 1000]
  centerHz := some 100000000
  spanHz := some 1000000000
  rbwHz := some 100000
  vbwHz := some 100000
  refLevel := some (-10)
  sweepTimeSec := some (1 / 100)
  ampDiv := some 10
  att := some 0
  avgNum := some 1

/-- The timestamp of the mock tick of spec §8. -/
def now0 : PyDateTime := ⟨2024, 7, 12, 10, 0, 0⟩

/-- Environment of a fully successful mock tick. -/
def env0 : TickEnv := ⟨instr0, now0, true, true⟩

/-- Fresh application state: running, empty log, no plot yet. -/
def st0 : AppState := ⟨false, [], none, []⟩

/-- The sample `querySample` extracts from `instr0`. -/
def smp0 : Sample where
  trace := [-50123 / 1000, -60456 / 1000]
  centerFreq := (100000000 : ℚ) / 1000000
  span := (1000000000 : ℚ) / 1000000000
  rbw := (100000 : ℚ) / 1000
  vbw := (100000 : ℚ) / 1000
  refLevel := -10
  sweepTimeMs := (1 : ℚ) / 100 * 1000
  ampDiv := 10
  att := 0
  avgNum := 1

end Spectrum

namespace Spectrum

theorem digitChar_isDigit : ∀ m, m < 10 → (Nat.digitChar m).isDigit = true := by
  decide

theorem natDigitsAux_all_isDigit :
    ∀ (fuel n : ℕ), ∀ c ∈ natDigitsAux n fuel, c.isDigit = true := by
  intro fuel
  induction fuel with
  | zero => intro n c hc; simp [natDigitsAux] at hc
  | succ fuel ih =>
    intro n c hc
    by_cases h : n < 10
    · simp [natDigitsAux, h] at hc
      exact hc ▸ digitChar_isDigit n h
    · simp [natDigitsAux, h] at hc
      rcases hc with hc | hc
      · exact ih _ c hc
      · exact hc ▸ digitChar_isDigit _ (Nat.mod_lt _ (by norm_num))

theorem natDigitsAux_length_le :
    ∀ (fuel n k : ℕ), 0 < k → n < 10 ^ k → (natDigitsAux n fuel).length ≤ k := by
  intro fuel
  induction fuel with
  | zero => intro n k hk _; simp [natDigitsAux]
  | succ fuel ih =>
    intro n k hk hn
    by_cases h : n < 10
    · simp [natDigitsAux, h]; omega
    · have hk2 : 2 ≤ k := by
        by_contra hlt
        have : k = 1 := by omega
        subst this
        simp at hn
        omega
      have hpow : (10 : ℕ) ^ k = 10 ^ (k - 1) * 10 := by
        conv_lhs => rw [show k = (k - 1) + 1 by omega]
        rw [pow_succ]
      have hdiv : n / 10 < 10 ^ (k - 1) := by
        rw [Nat.div_lt_iff_lt_mul (by norm_num)]
        omega
      have := ih (n / 10) (k - 1) (by omega) hdiv
      simp [natDigitsAux, h, List.length_append]
      omega

theorem natStr_length_le (m k : ℕ) (hk : 0 < k) (hm : m < 10 ^ k) :
    (natStr m).length ≤ k := by
  simpa [natStr] using natDigitsAux_length_le (m + 1) m k hk hm

theorem natStr_all_isDigit (m : ℕ) : ∀ c ∈ (natStr m).data, c.isDigit = true := by
  simpa [natStr] using natDigitsAux_all_isDigit (m + 1) m

theorem padLeftZeros_data (s : String) (n : ℕ) :
    (padLeftZeros s n).data = List.replicate (n - s.length) '0' ++ s.data := by
  simp [padLeftZeros, String.data_append]

theorem padLeftZeros_length (s : String) (n : ℕ) :
    (padLeftZeros s n).length = max n s.length := by
  have : (padLeftZeros s n).length = (padLeftZeros s n).data.length := rfl
  rw [this, padLeftZeros_data, List.length_append, List.length_replicate]
  have : s.data.length = s.length := rfl
  omega

theorem afterLastDot_eq_none (l : List Char) (h : '.' ∉ l) : afterLastDot l = none := by
  induction l with
  | nil => rfl
  | cons c cs ih =>
    rw [List.mem_cons] at h
    push_neg at h
    simp only [afterLastDot]
    rw [ih h.2]
    simp [Ne.symm h.1]

theorem afterLastDot_append_cons (s t : List Char) (h : '.' ∉ t) :
    afterLastDot (s ++ '.' :: t) = some t := by
  induction s with
  | nil =>
    simp only [List.nil_append, afterLastDot]
    rw [afterLastDot_eq_none t h]
    simp
  | cons c cs ih =>
    simp only [List.cons_append, afterLastDot]
    rw [show cs.append ('.' :: t) = cs ++ '.' :: t from rfl, ih]

theorem formatFixed_decimals (x : ℚ) (k : ℕ) (hk : 0 < k) :
    ∃ t, afterLastDot (formatFixed x k).data = some t ∧ t.length = k ∧
      ∀ c ∈ t, c.isDigit = true := by
  have hk0 : k ≠ 0 := hk.ne'
  set m := roundHalfEven (x.num.natAbs * 10 ^ k) x.den with hm
  refine ⟨(padLeftZeros (natStr (m % 10 ^ k)) k).data, ?_, ?_, ?_⟩
  · have hdig : ∀ c ∈ (padLeftZeros (natStr (m % 10 ^ k)) k).data, c.isDigit = true := by
      intro c hc
      rw [padLeftZeros_data] at hc
      rcases List.mem_append.mp hc with hc | hc
      · rw [List.eq_of_mem_replicate hc]; decide
      · exact natStr_all_isDigit _ c hc
    have hnodot : '.' ∉ (padLeftZeros (natStr (m % 10 ^ k)) k).data := by
      intro hdot
      have := hdig '.' hdot
      simp at this
    have hdata : (formatFixed x k).data =
        ((if x.num < 0 then "-" else "") ++ natStr (m / 10 ^ k)).data ++
          '.' :: (padLeftZeros (natStr (m % 10 ^ k)) k).data := by
      simp only [formatFixed, if_neg hk0, ← hm]
      rw [String.data_append, String.data_append]
      simp [List.append_assoc]
    rw [hdata]
    exact afterLastDot_append_cons _ _ hnodot
  · have hmod : m % 10 ^ k < 10 ^ k := Nat.mod_lt _ (pow_pos (by norm_num) k)
    have h1 : (natStr (m % 10 ^ k)).length ≤ k := natStr_length_le _ k hk hmod
    have h2 : (padLeftZeros (natStr (m % 10 ^ k)) k).data.length =
        (padLeftZeros (natStr (m % 10 ^ k)) k).length := rfl
    rw [h2, padLeftZeros_length]
    omega
  · intro c hc
    rw [padLeftZeros_data] at hc
    rcases List.mem_append.mp hc with hc | hc
    · rw [List.eq_of_mem_replicate hc]; decide
    · exact natStr_all_isDigit _ c hc

theorem update_plot_paused (env : TickEnv) (st : AppState) (hp : st.pause = true) :
    update_plot env st = st := by
  simp [update_plot, hp]

theorem update_plot_success (env : TickEnv) (st : AppState) (smp : Sample)
    (hp : st.pause = false) (hq : querySample env.instr = some smp)
    (hf : env.fileOk = true) (hpl : env.plotOk = true) :
    update_plot env st =
      { st with rfiFile := st.rfiFile ++ recordLines env.now smp,
                axTrace := some smp.trace } := by
  simp [update_plot, hp, hq, hf, hpl]

theorem update_plot_queryFail (env : TickEnv) (st : AppState)
    (hp : st.pause = false) (hq : querySample env.instr = none) :
    update_plot env st = { st with dialogs := st.dialogs ++ [updateErrorMsg] } := by
  simp [update_plot, hp, hq]

theorem update_plot_fileFail (env : TickEnv) (st : AppState) (smp : Sample)
    (hp : st.pause = false) (hq : querySample env.instr = some smp)
    (hf : env.fileOk = false) :
    update_plot env st = { st with dialogs := st.dialogs ++ [updateErrorMsg] } := by
  simp [update_plot, hp, hq, hf]

theorem update_plot_plotFail (env : TickEnv) (st : AppState) (smp : Sample)
    (hp : st.pause = false) (hq : querySample env.instr = some smp)
    (hf : env.fileOk = true) (hpl : env.plotOk = false) :
    update_plot env st =
      { st with rfiFile := st.rfiFile ++ recordLines env.now smp,
                dialogs := st.dialogs ++ [updateErrorMsg] } := by
  simp [update_plot, hp, hq, hf, hpl]

theorem sendWrites_allOk (ok : ℕ → Bool) :
    ∀ (cmds : List String) (j : ℕ), (∀ i, i < cmds.length → ok (j + i) = true) →
      sendWrites ok cmds j = (cmds, true) := by
  intro cmds
  induction cmds with
  | nil => intro j _; rfl
  | cons c cs ih =>
    intro j hok
    have h0 : ok j = true := by simpa using hok 0 (by simp)
    have hrec : sendWrites ok cs (j + 1) = (cs, true) := by
      refine ih (j + 1) (fun i hi => ?_)
      have := hok (i + 1) (by simp; omega)
      rwa [show j + (i + 1) = j + 1 + i by omega] at this
    simp [sendWrites, h0, hrec]

theorem sendWrites_firstFail (ok : ℕ → Bool) :
    ∀ (cmds : List String) (j k : ℕ), (∀ i, i < k → ok (j + i) = true) →
      ok (j + k) = false → k < cmds.length →
      sendWrites ok cmds j = (cmds.take k, false) := by
  intro cmds
  induction cmds with
  | nil => intro j k _ _ h; simp at h
  | cons c cs ih =>
    intro j k hpre hk hlen
    match k with
    | 0 =>
      have h0 : ok j = false := by simpa using hk
      simp [sendWrites, h0]
    | k + 1 =>
      have h0 : ok j = true := by simpa using hpre 0 (by omega)
      have hrec : sendWrites ok cs (j + 1) = (cs.take k, false) := by
        refine ih (j + 1) k (fun i hi => ?_) ?_ ?_
        · have := hpre (i + 1) (by omega)
          rwa [show j + (i + 1) = j + 1 + i by omega] at this
        · rwa [show j + 1 + k = j + (k + 1) by omega]
        · simpa using Nat.lt_of_succ_lt_succ (by simpa using hlen)
      simp [sendWrites, h0, hrec]

/-- Claim C1: a tick that runs to completion with valid instrument
responses (not paused, all queries succeed, file write succeeds) appends
exactly one record to the log file — a header line terminated by `*`, a
comma-separated two-decimal trace line terminated by `@`, and a blank
separator line — and nothing else is written to the file in that tick. -/
theorem tick_appends_one_record (env : TickEnv) (st : AppState) (smp : Sample)
    (hp : st.pause = false) (hq : querySample env.instr = some smp)
    (hf : env.fileOk = true) (hpl : env.plotOk = true) :
    (update_plot env st).rfiFile =
      st.rfiFile ++ [headerLine env.now smp, traceLine smp.trace, ""] ∧
    (∃ p, headerLine env.now smp = p ++ "*") ∧
    (∃ q, traceLine smp.trace = q ++ "@") ∧
    traceLine smp.trace =
      String.intercalate "," (smp.trace.map (fun x => formatFixed x 2)) ++ ",@" := by
  refine ⟨?_, ?_, ?_, rfl⟩
  · rw [update_plot_success env st smp hp hq hf hpl]
    simp [recordLines]
  · exact ⟨strftimeYmdHMS env.now ++ "," ++ formatFixed smp.centerFreq 6 ++ "," ++
      formatFixed smp.span 9 ++ "," ++ formatFixed smp.rbw 3 ++ "," ++
      formatFixed smp.vbw 3 ++ "," ++ pyFloatStr smp.refLevel ++ "," ++
      pyFloatStr smp.sweepTimeMs ++ "," ++ pyFloatStr smp.ampDiv ++ "," ++
      pyFloatStr smp.att ++ "," ++ pyFloatStr smp.avgNum ++ ",",
      (String.append_assoc _ "," "*").symm⟩
  · exact ⟨String.intercalate "," (smp.trace.map (fun x => formatFixed x 2)) ++ ",",
      (String.append_assoc _ "," "@").symm⟩

/-- Witness for C1 at the mock tick of spec §8: the appended record is
exactly the header, trace line and blank line, with the concrete strings
spelled out. -/
theorem tick_appends_one_record_witness :
    (st0.pause = false ∧ querySample env0.instr = some smp0 ∧
      env0.fileOk = true ∧ env0.plotOk = true) ∧
    (update_plot env0 st0).rfiFile =
      st0.rfiFile ++ [headerLine now0 smp0, traceLine smp0.trace, ""] ∧
    headerLine now0 smp0 =
      "2024-07-12 10:00:00,100.000000,1.000000000,100.000,100.000,-10.0,10.0,10.0,0.0,1.0,*" ∧
    traceLine smp0.trace = "-50.12,-60.46,@" := by
  refine ⟨⟨rfl, rfl, rfl, rfl⟩,
    (tick_appends_one_record env0 st0 smp0 rfl rfl rfl rfl).1, ?_, ?_⟩
  · have hc : formatFixed smp0.centerFreq 6 = "100.000000" := by
      rw [show smp0.centerFreq = (100 : ℚ) by norm_num [smp0]]; decide
    have hs : formatFixed smp0.span 9 = "1.000000000" := by
      rw [show smp0.span = (1 : ℚ) by norm_num [smp0]]; decide
    have hr : formatFixed smp0.rbw 3 = "100.000" := by
      rw [show smp0.rbw = (100 : ℚ) by norm_num [smp0]]; decide
    have hv : formatFixed smp0.vbw 3 = "100.000" := by
      rw [show smp0.vbw = (100 : ℚ) by norm_num [smp0]]; decide
    have hw : pyFloatStr smp0.sweepTimeMs = "10.0" := by
      rw [show smp0.sweepTimeMs = (10 : ℚ) by norm_num [smp0]]; decide
    rw [headerLine, hc, hs, hr, hv, hw]
    decide
  · have ht : smp0.trace = [mkRat (-50123) 1000, mkRat (-60456) 1000] := by
      simp only [smp0, Rat.mkRat_eq_div]
      norm_num
    rw [ht]
    decide

/-- Claim C2: in every appended record the center frequency (raw Hz
divided by 1e6) is rendered with exactly 6 decimal places, the span
(raw divided by 1e9) with 9, the bandwidths (raw divided by 1e3) with 3,
and each trace amplitude with 2; in particular raw 750,000,000 Hz center
renders as `750.000000` and raw 200,000,000 Hz span as `0.200000000`. -/
theorem record_numeric_formatting :
    (∀ (x : ℚ) (k : ℕ), 0 < k →
      ∃ t, afterLastDot (formatFixed x k).data = some t ∧ t.length = k) ∧
    formatFixed ((750000000 : ℚ) / 1000000) 6 = "750.000000" ∧
    formatFixed ((200000000 : ℚ) / 1000000000) 9 = "0.200000000" ∧
    (∀ (tr : List ℚ) (c sp rb vb rl stt ad a av : ℚ) (s : Sample),
      querySample ⟨some tr, some c, some sp, some rb, some vb, some rl,
        some stt, some ad, some a, some av⟩ = some s →
      s.trace = tr ∧ s.centerFreq = c / 1000000 ∧ s.span = sp / 1000000000 ∧
      s.rbw = rb / 1000 ∧ s.vbw = vb / 1000) ∧
    (∀ (ts : PyDateTime) (s : Sample), headerLine ts s =
      strftimeYmdHMS ts ++ "," ++ formatFixed s.centerFreq 6 ++ "," ++
      formatFixed s.span 9 ++ "," ++ formatFixed s.rbw 3 ++ "," ++
      formatFixed s.vbw 3 ++ "," ++ pyFloatStr s.refLevel ++ "," ++
      pyFloatStr s.sweepTimeMs ++ "," ++ pyFloatStr s.ampDiv ++ "," ++
      pyFloatStr s.att ++ "," ++ pyFloatStr s.avgNum ++ ",*") ∧
    (∀ tr : List ℚ, traceLine tr =
      String.intercalate "," (tr.map (fun x => formatFixed x 2)) ++ ",@") := by
  refine ⟨?_, ?_, ?_, ?_, fun ts s => rfl, fun tr => rfl⟩
  · intro x k hk
    obtain ⟨t, h1, h2, _⟩ := formatFixed_decimals x k hk
    exact ⟨t, h1, h2⟩
  · rw [show ((750000000 : ℚ) / 1000000) = (750 : ℚ) by norm_num]
    decide
  · rw [show ((200000000 : ℚ) / 1000000000) = mkRat 1 5 by
      rw [Rat.mkRat_eq_div]; norm_num]
    decide
  · intro tr c sp rb vb rl stt ad a av s h
    injection h with h
    subst h
    exact ⟨rfl, rfl, rfl, rfl, rfl⟩

/-- Witness for C2: the exactly-two-decimals property at the amplitude
`-50.123` and the raw-to-rendered pipeline at the mock instrument. -/
theorem record_numeric_formatting_witness :
    ((0 : ℕ) < 2 ∧
      ∃ t, afterLastDot (formatFixed (mkRat (-50123) 1000) 2).data = some t ∧
        t.length = 2) ∧
    (∀ s : Sample,
      querySample ⟨some [-50123 / 1000, -60456 / 1000], some 100000000,
        some 1000000000, some 100000, some 100000, some (-10), some (1 / 100),
        some 10, some 0, some 1⟩ = some s →
      s.centerFreq = (100000000 : ℚ) / 1000000) :=
  ⟨⟨by decide, record_numeric_formatting.1 (mkRat (-50123) 1000) 2 (by decide)⟩,
    fun s h =>
      (record_numeric_formatting.2.2.2.1 [-50123 / 1000, -60456 / 1000]
        100000000 1000000000 100000 100000 (-10) (1 / 100) 10 0 1 s h).2.1⟩

/-- Claim C3: `reset_parameters` sends the device reset first and then
exactly eight configuration writes in a fixed order; if the `k`-th
configuration write fails, the reset and the first `k − 1` configuration
writes have already been delivered and the later writes are never sent. -/
theorem reset_parameters_sequence (ok : ℕ → Bool) (k : ℕ)
    (h1 : 1 ≤ k) (h8 : k ≤ 8)
    (hpre : ∀ i, i < k → ok i = true) (hk : ok k = false) :
    resetCommands =
      ["*RST",
       ":SENSE:FREQ:CENTER 100000000.0", ":SENSE:FREQ:SPAN 1000000000.0",
       ":SENSE:BAND:RES 100000.0", ":SENSE:BAND:VID 100000.0",
       ":DISP:WIND:TRAC:Y:RLEV -10.0", ":DISP:WIND:TRAC:Y:SCAL 10.0",
       ":INP:ATT 0.0", ":AVER:COUN 1.0"] ∧
    reset_parameters ok = (resetCommands.take k, false) ∧
    (resetCommands.take k).length = k ∧
    (∀ ok2 : ℕ → Bool, (∀ i, i < 9 → ok2 i = true) →
      reset_parameters ok2 = (resetCommands, true)) := by
  have hlen : resetCommands.length = 9 := rfl
  refine ⟨by decide, ?_, ?_, ?_⟩
  · rw [reset_parameters]
    refine sendWrites_firstFail ok resetCommands 0 k (fun i hi => ?_) ?_ (by omega)
    · simpa using hpre i hi
    · simpa using hk
  · rw [List.length_take]
    omega
  · intro ok2 hok2
    rw [reset_parameters]
    refine sendWrites_allOk ok2 resetCommands 0 (fun i hi => ?_)
    simpa using hok2 i (by omega)

/-- Witness for C3 with the fourth configuration write failing: the
reset and the first three configuration writes were delivered, the
fifth through eighth never sent. -/
theorem reset_parameters_sequence_witness :
    ((1 : ℕ) ≤ 4 ∧ (4 : ℕ) ≤ 8 ∧
      (∀ i, i < 4 → (fun i => decide (i < 4)) i = true) ∧
      (fun i => decide (i < 4)) 4 = false) ∧
    reset_parameters (fun i => decide (i < 4)) = (resetCommands.take 4, false) ∧
    resetCommands.take 4 =
      ["*RST", ":SENSE:FREQ:CENTER 100000000.0", ":SENSE:FREQ:SPAN 1000000000.0",
       ":SENSE:BAND:RES 100000.0"] :=
  ⟨⟨by decide, by decide, by decide, by decide⟩,
    (reset_parameters_sequence (fun i => decide (i < 4)) 4 (by decide) (by decide)
      (by decide) (by decide)).2.1,
    by decide⟩

/-- Claim C4: a tick in which any step fails (query, file write, or plot
redraw) aborts the rest of the tick, surfaces exactly one error dialog,
leaves the paused flag unchanged and the plot untouched, does not touch
the log unless the failure came after the append, and a subsequent tick
with valid responses runs normally. -/
theorem tick_error_isolated (env : TickEnv) (st : AppState)
    (hp : st.pause = false)
    (herr : querySample env.instr = none ∨ env.fileOk = false ∨ env.plotOk = false) :
    (update_plot env st).pause = st.pause ∧
    (update_plot env st).dialogs = st.dialogs ++ [updateErrorMsg] ∧
    (update_plot env st).axTrace = st.axTrace ∧
    (querySample env.instr = none ∨ env.fileOk = false →
      (update_plot env st).rfiFile = st.rfiFile) ∧
    (∀ (env' : TickEnv) (smp : Sample), querySample env'.instr = some smp →
      env'.fileOk = true → env'.plotOk = true →
      (update_plot env' (update_plot env st)).rfiFile =
        (update_plot env st).rfiFile ++ recordLines env'.now smp ∧
      (update_plot env' (update_plot env st)).axTrace = some smp.trace) := by
  have hnext : (update_plot env st).pause = false →
      ∀ (env' : TickEnv) (smp : Sample), querySample env'.instr = some smp →
        env'.fileOk = true → env'.plotOk = true →
        (update_plot env' (update_plot env st)).rfiFile =
          (update_plot env st).rfiFile ++ recordLines env'.now smp ∧
        (update_plot env' (update_plot env st)).axTrace = some smp.trace := by
    intro hp' env' smp hq' hf' hpl'
    rw [update_plot_success env' (update_plot env st) smp hp' hq' hf' hpl']
    exact ⟨rfl, rfl⟩
  have h : (update_plot env st).pause = st.pause ∧
      (update_plot env st).dialogs = st.dialogs ++ [updateErrorMsg] ∧
      (update_plot env st).axTrace = st.axTrace ∧
      (querySample env.instr = none ∨ env.fileOk = false →
        (update_plot env st).rfiFile = st.rfiFile) := by
    rcases hq : querySample env.instr with _ | smp
    · rw [update_plot_queryFail env st hp hq]
      exact ⟨rfl, rfl, rfl, fun _ => rfl⟩
    · rcases hf : env.fileOk with _ | _
      · rw [update_plot_fileFail env st smp hp hq hf]
        exact ⟨rfl, rfl, rfl, fun _ => rfl⟩
      · rcases hpl : env.plotOk with _ | _
        · rw [update_plot_plotFail env st smp hp hq hf hpl]
          refine ⟨rfl, rfl, rfl, fun hcase => ?_⟩
          rcases hcase with hcase | hcase
          · cases hcase
          · cases hcase
        · exfalso
          rcases herr with herr | herr | herr
          · rw [herr] at hq; cases hq
          · rw [herr] at hf; cases hf
          · rw [herr] at hpl; cases hpl
  exact ⟨h.1, h.2.1, h.2.2.1, h.2.2.2, hnext (h.1.trans hp)⟩

/-- Witness for C4 with the file write failing: the flag is untouched,
one dialog appears, the log is untouched, and the next tick with the
mock instrument appends its record. -/
theorem tick_error_isolated_witness :
    (st0.pause = false ∧
      (querySample { env0 with fileOk := false }.instr = none ∨
        { env0 with fileOk := false }.fileOk = false ∨
        { env0 with fileOk := false }.plotOk = false)) ∧
    (update_plot { env0 with fileOk := false } st0).pause = st0.pause ∧
    (update_plot { env0 with fileOk := false } st0).dialogs =
      st0.dialogs ++ [updateErrorMsg] :=
  ⟨⟨rfl, Or.inr (Or.inl rfl)⟩,
    (tick_error_isolated { env0 with fileOk := false } st0 rfl
      (Or.inr (Or.inl rfl))).1,
    (tick_error_isolated { env0 with fileOk := false } st0 rfl
      (Or.inr (Or.inl rfl))).2.1⟩

/-- Claim C5: when the trace-data query fails the log file is left
completely unchanged — no header, no trace line, no partial record —
and only the trace query was issued to the instrument. -/
theorem trace_fail_no_append (env : TickEnv) (st : AppState)
    (hp : st.pause = false) (htr : env.instr.traceData = none) :
    (update_plot env st).rfiFile = st.rfiFile ∧
    tickQueries env.instr st = ["TRACE:DATA? TRACE1"] := by
  have hq : querySample env.instr = none := by
    rw [querySample, htr]
    rfl
  rw [update_plot_queryFail env st hp hq]
  exact ⟨rfl, by simp [tickQueries, hp, htr]⟩

/-- Witness for C5: a tick whose trace query fails appends nothing. -/
theorem trace_fail_no_append_witness :
    (st0.pause = false ∧
      ({ env0 with instr := { instr0 with traceData := none } }).instr.traceData = none) ∧
    (update_plot { env0 with instr := { instr0 with traceData := none } } st0).rfiFile =
      st0.rfiFile :=
  ⟨⟨rfl, rfl⟩,
    (trace_fail_no_append { env0 with instr := { instr0 with traceData := none } }
      st0 rfl rfl).1⟩

/-- Claim C6: every appended record is a header line of the timestamp
followed by nine comma-separated scalar fields terminated by the `*`
marker, then a comma-separated two-decimal trace line terminated by the
`@` marker, then a blank separator line. -/
theorem record_layout (ts : PyDateTime) (s : Sample) :
    recordLines ts s = [headerLine ts s, traceLine s.trace, ""] ∧
    headerLine ts s = String.intercalate ","
      ([strftimeYmdHMS ts] ++
        [formatFixed s.centerFreq 6, formatFixed s.span 9, formatFixed s.rbw 3,
         formatFixed s.vbw 3, pyFloatStr s.refLevel, pyFloatStr s.sweepTimeMs,
         pyFloatStr s.ampDiv, pyFloatStr s.att, pyFloatStr s.avgNum] ++ ["*"]) ∧
    [formatFixed s.centerFreq 6, formatFixed s.span 9, formatFixed s.rbw 3,
     formatFixed s.vbw 3, pyFloatStr s.refLevel, pyFloatStr s.sweepTimeMs,
     pyFloatStr s.ampDiv, pyFloatStr s.att, pyFloatStr s.avgNum].length = 9 ∧
    traceLine s.trace =
      String.intercalate "," (s.trace.map (fun x => formatFixed x 2)) ++ ",@" ∧
    (∃ q, traceLine s.trace = q ++ "@") := by
  refine ⟨rfl, ?_, rfl, rfl, ?_⟩
  · simp only [List.cons_append, List.nil_append, String.intercalate,
      String.intercalate.go]
    exact (String.append_assoc _ "," "*").symm
  · exact ⟨String.intercalate "," (s.trace.map (fun x => formatFixed x 2)) ++ ",",
      (String.append_assoc _ "," "@").symm⟩

/-- Claim C7: `resume_updates` clears the paused flag and immediately
runs one tick — with valid responses it produces one log append and one
plot update without waiting for the scheduled cadence. -/
theorem resume_runs_tick (env : TickEnv) (st : AppState) (smp : Sample)
    (hq : querySample env.instr = some smp)
    (hf : env.fileOk = true) (hpl : env.plotOk = true) :
    resume_updates env st = update_plot env { st with pause := false } ∧
    (resume_updates env st).pause = false ∧
    (resume_updates env st).rfiFile = st.rfiFile ++ recordLines env.now smp ∧
    (resume_updates env st).axTrace = some smp.trace := by
  have h : update_plot env { st with pause := false } =
      { st with pause := false,
                rfiFile := st.rfiFile ++ recordLines env.now smp,
                axTrace := some smp.trace } :=
    update_plot_success env { st with pause := false } smp rfl hq hf hpl
  exact ⟨rfl, by rw [resume_updates, h], by rw [resume_updates, h], by rw [resume_updates, h]⟩

/-- Witness for C7: resuming from the paused state with the mock
instrument immediately appends the record and draws the trace. -/
theorem resume_runs_tick_witness :
    (querySample env0.instr = some smp0 ∧ env0.fileOk = true ∧ env0.plotOk = true) ∧
    (resume_updates env0 (pause_updates st0)).pause = false ∧
    (resume_updates env0 (pause_updates st0)).rfiFile =
      (pause_updates st0).rfiFile ++ recordLines now0 smp0 ∧
    (resume_updates env0 (pause_updates st0)).axTrace = some smp0.trace :=
  ⟨⟨rfl, rfl, rfl⟩,
    (resume_runs_tick env0 (pause_updates st0) smp0 rfl rfl rfl).2.1,
    (resume_runs_tick env0 (pause_updates st0) smp0 rfl rfl rfl).2.2.1,
    (resume_runs_tick env0 (pause_updates st0) smp0 rfl rfl rfl).2.2.2⟩

/-- Claim C8: after `pause_updates`, a tick is a complete no-op while
the flag stays set: the state (log file, plot, dialogs) is unchanged, no
instrument query is issued, and any number of further ticks leave the
state exactly as it was. -/
theorem paused_tick_is_noop (env : TickEnv) (st : AppState) :
    update_plot env (pause_updates st) = pause_updates st ∧
    tickQueries env.instr (pause_updates st) = [] ∧
    (update_plot env (pause_updates st)).rfiFile = st.rfiFile ∧
    (update_plot env (pause_updates st)).axTrace = st.axTrace ∧
    ∀ envs : List TickEnv,
      List.foldl (fun s e => update_plot e s) (pause_updates st) envs =
        pause_updates st := by
  have h1 : update_plot env (pause_updates st) = pause_updates st :=
    update_plot_paused env (pause_updates st) rfl
  refine ⟨h1, by simp [tickQueries, pause_updates], by rw [h1]; rfl, by rw [h1]; rfl, ?_⟩
  intro envs
  induction envs with
  | nil => rfl
  | cons e es ih =>
    simp only [List.foldl_cons, update_plot_paused e (pause_updates st) rfl, ih]

/-- Claim C9: `pause_updates` is idempotent — a second call leaves the
state (flag, log file, plot, dialogs) exactly as one call does, and
touches nothing else. -/
theorem pause_idempotent (st : AppState) :
    pause_updates (pause_updates st) = pause_updates st ∧
    (pause_updates st).pause = true ∧
    (pause_updates st).rfiFile = st.rfiFile ∧
    (pause_updates st).axTrace = st.axTrace ∧
    (pause_updates st).dialogs = st.dialogs :=
  ⟨rfl, rfl, rfl, rfl, rfl⟩

/-- Claim C10: when the file append completed but the plot redraw fails,
the appended record stays in the log — the error handler never rolls
back a completed append — while the error is surfaced and the plot is
left untouched. -/
theorem plot_fail_keeps_record (env : TickEnv) (st : AppState) (smp : Sample)
    (hp : st.pause = false) (hq : querySample env.instr = some smp)
    (hf : env.fileOk = true) (hpl : env.plotOk = false) :
    (update_plot env st).rfiFile = st.rfiFile ++ recordLines env.now smp ∧
    (update_plot env st).dialogs = st.dialogs ++ [updateErrorMsg] ∧
    (update_plot env st).axTrace = st.axTrace := by
  rw [update_plot_plotFail env st smp hp hq hf hpl]
  exact ⟨rfl, rfl, rfl⟩

/-- Witness for C10: a tick of the mock instrument whose plot redraw
fails still leaves the freshly appended record in the log. -/
theorem plot_fail_keeps_record_witness :
    (st0.pause = false ∧ querySample { env0 with plotOk := false }.instr = some smp0 ∧
      { env0 with plotOk := false }.fileOk = true ∧
      { env0 with plotOk := false }.plotOk = false) ∧
    (update_plot { env0 with plotOk := false } st0).rfiFile =
      st0.rfiFile ++ recordLines now0 smp0 ∧
    (update_plot { env0 with plotOk := false } st0).dialogs =
      st0.dialogs ++ [updateErrorMsg] :=
  ⟨⟨rfl, rfl, rfl, rfl⟩,
    (plot_fail_keeps_record { env0 with plotOk := false } st0 smp0 rfl rfl rfl rfl).1,
    (plot_fail_keeps_record { env0 with plotOk := false } st0 smp0 rfl rfl rfl rfl).2.1⟩

end Spectrum
